import Mathlib

/-!
# rqwebview: the two-function bridge over the web-view toolkit

The translation unit `rqwebview.c` defines two `extern "C"` functions,

    void qwebview_load(QWebView *view, char *url)  { view->load(QUrl(url)); }
    void qwebview_eval(QWebView *view, char *code) {
      view->page()->mainFrame()->evaluateJavaScript(QString(code)); }

Everything they call is declared by the toolkit headers the file includes and
defined outside the repository.  The toolkit is therefore a parameter of the
embedding: its types are abstract, its entry points are arbitrary functions
that pass an abstract toolkit state along, and every theorem is quantified
over all toolkits.  The translation unit declares no object of its own, so the
only state a bridge function threads is the toolkit state.
-/

namespace RQWebView

/-- The text a `char *` argument points to: the bytes stored before the
terminating NUL. -/
abbrev CString := List UInt8

/-- The bytes of a string literal, as a C compiler stores it (UTF-8). -/
def cstr (s : String) : CString :=
  s.toUTF8.data.toList

/-- The classes the bridge mentions, declared by the toolkit headers
(`QWebView`, `QWebFrame`, `QUrl` and what they pull in). -/
structure ToolkitTypes where
  /-- What a `QWebView *` designates: a widget. -/
  QWebView : Type
  /-- What `QWebView::page()` returns. -/
  QWebPage : Type
  /-- What `QWebPage::mainFrame()` returns. -/
  QWebFrame : Type
  /-- The URL value type. -/
  QUrl : Type
  /-- The string value type. -/
  QString : Type
  /-- The result type of `QWebFrame::evaluateJavaScript`. -/
  QVariant : Type

/-- The toolkit entry points, over a toolkit state `World` that every member
function call may read and change.  The two value constructors build a value
from the C string and touch no widget. -/
structure Toolkit (T : ToolkitTypes) (World : Type) where
  /-- The expression `QUrl(url)` for `char *url`. -/
  newQUrl : CString → T.QUrl
  /-- The expression `QString(code)` for `char *code`. -/
  newQString : CString → T.QString
  /-- The member `void QWebView::load(const QUrl &)`. -/
  load : T.QWebView → T.QUrl → World → World
  /-- The member `QWebPage *QWebView::page() const`. -/
  page : T.QWebView → World → T.QWebPage × World
  /-- The member `QWebFrame *QWebPage::mainFrame() const`. -/
  mainFrame : T.QWebPage → World → T.QWebFrame × World
  /-- The member `QVariant QWebFrame::evaluateJavaScript(const QString &)`. -/
  evaluateJavaScript : T.QWebFrame → T.QString → World → T.QVariant × World
  /-- The constructor of `QWebView`; the bridge has no call to it. -/
  newQWebView : World → T.QWebView × World
  /-- The destructor of `QWebView`; the bridge has no call to it. -/
  deleteQWebView : T.QWebView → World → World

/-- The function `qwebview_load`: `view->load(QUrl(url));`, returning `void`. -/
def qwebview_load {T : ToolkitTypes} {World : Type} (K : Toolkit T World)
    (view : T.QWebView) (url : CString) (w : World) : Unit × World :=
  ((), K.load view (K.newQUrl url) w)

/-- The function `qwebview_eval`:
`view->page()->mainFrame()->evaluateJavaScript(QString(code));`, returning
`void`; the `QVariant` the last call returns is dropped. -/
def qwebview_eval {T : ToolkitTypes} {World : Type} (K : Toolkit T World)
    (view : T.QWebView) (code : CString) (w : World) : Unit × World :=
  let p := K.page view w
  let f := K.mainFrame p.1 p.2
  let r := K.evaluateJavaScript f.1 (K.newQString code) f.2
  ((), r.2)

/-! ## Recording the toolkit calls -/

/-- One call into the toolkit, with the arguments it was made with. -/
inductive ToolkitCall (T : ToolkitTypes) where
  | load (view : T.QWebView) (url : T.QUrl)
  | page (view : T.QWebView)
  | mainFrame (page : T.QWebPage)
  | evaluateJavaScript (frame : T.QWebFrame) (code : T.QString)
  | newQWebView
  | deleteQWebView (view : T.QWebView)

/-- The toolkit `K` with a log: every entry point behaves as in `K` and
appends the call to the log kept beside the toolkit state. -/
def traced {T : ToolkitTypes} {World : Type} (K : Toolkit T World) :
    Toolkit T (World × List (ToolkitCall T)) where
  newQUrl := K.newQUrl
  newQString := K.newQString
  load := fun v u s => (K.load v u s.1, s.2 ++ [ToolkitCall.load v u])
  page := fun v s => ((K.page v s.1).1, ((K.page v s.1).2, s.2 ++ [ToolkitCall.page v]))
  mainFrame := fun p s =>
    ((K.mainFrame p s.1).1, ((K.mainFrame p s.1).2, s.2 ++ [ToolkitCall.mainFrame p]))
  evaluateJavaScript := fun f c s =>
    ((K.evaluateJavaScript f c s.1).1,
      ((K.evaluateJavaScript f c s.1).2, s.2 ++ [ToolkitCall.evaluateJavaScript f c]))
  newQWebView := fun s =>
    ((K.newQWebView s.1).1, ((K.newQWebView s.1).2, s.2 ++ [ToolkitCall.newQWebView]))
  deleteQWebView := fun v s => (K.deleteQWebView v s.1, s.2 ++ [ToolkitCall.deleteQWebView v])

/-- The calls `qwebview_load` makes into the toolkit from state `w`. -/
def loadCalls {T : ToolkitTypes} {World : Type} (K : Toolkit T World)
    (view : T.QWebView) (url : CString) (w : World) : List (ToolkitCall T) :=
  (qwebview_load (traced K) view url (w, [])).2.2

/-- The calls `qwebview_eval` makes into the toolkit from state `w`. -/
def evalCalls {T : ToolkitTypes} {World : Type} (K : Toolkit T World)
    (view : T.QWebView) (code : CString) (w : World) : List (ToolkitCall T) :=
  (qwebview_eval (traced K) view code (w, [])).2.2

/-! ## Sequences of bridge calls on one handle -/

/-- One call of the host into the bridge, on a handle fixed elsewhere. -/
inductive BridgeCall where
  | load (url : CString)
  | eval (code : CString)

/-- The bridge function a host call stands for, applied to the handle. -/
def BridgeCall.run {T : ToolkitTypes} {World : Type} (K : Toolkit T World)
    (view : T.QWebView) : BridgeCall → World → Unit × World
  | BridgeCall.load url => qwebview_load K view url
  | BridgeCall.eval code => qwebview_eval K view code

/-- The host makes the calls of `cs` one after the other on the same handle;
only the toolkit state goes from one call to the next. -/
def runAll {T : ToolkitTypes} {World : Type} (K : Toolkit T World)
    (view : T.QWebView) : List BridgeCall → World → World
  | [], w => w
  | c :: cs, w => runAll K view cs (c.run K view w).2

/-- The toolkit calls one bridge call makes when it is made alone from `w`. -/
def callsAlone {T : ToolkitTypes} {World : Type} (K : Toolkit T World)
    (view : T.QWebView) (c : BridgeCall) (w : World) : List (ToolkitCall T) :=
  (c.run (traced K) view (w, [])).2.2

/-- The specification side of statelessness: the toolkit call that corresponds
to one host call, made directly on the toolkit. -/
def specToolkitStep {T : ToolkitTypes} {World : Type} (K : Toolkit T World)
    (view : T.QWebView) (w : World) : BridgeCall → World
  | BridgeCall.load url => K.load view (K.newQUrl url) w
  | BridgeCall.eval code =>
    (K.evaluateJavaScript (K.mainFrame (K.page view w).1 (K.page view w).2).1
      (K.newQString code) (K.mainFrame (K.page view w).1 (K.page view w).2).2).2

/-- The specification side of statelessness: the toolkit calls a host call
corresponds to, as a log. -/
def specToolkitCalls {T : ToolkitTypes} {World : Type} (K : Toolkit T World)
    (view : T.QWebView) (w : World) : BridgeCall → List (ToolkitCall T)
  | BridgeCall.load url => [ToolkitCall.load view (K.newQUrl url)]
  | BridgeCall.eval code =>
    [ToolkitCall.page view, ToolkitCall.mainFrame (K.page view w).1,
     ToolkitCall.evaluateJavaScript (K.mainFrame (K.page view w).1 (K.page view w).2).1
       (K.newQString code)]

/-- The specification side of statelessness: the log of a whole sequence is
the logs of its calls, each taken at the toolkit state the earlier toolkit
calls left. -/
def specSequenceCalls {T : ToolkitTypes} {World : Type} (K : Toolkit T World)
    (view : T.QWebView) : List BridgeCall → World → List (ToolkitCall T)
  | [], _ => []
  | c :: cs, w =>
    specToolkitCalls K view w c ++ specSequenceCalls K view cs (specToolkitStep K view w c)

/-! ## Classifying logged calls -/

/-- A navigation request. -/
def ToolkitCall.isLoad {T : ToolkitTypes} : ToolkitCall T → Bool
  | ToolkitCall.load _ _ => true
  | _ => false

/-- A script submission. -/
def ToolkitCall.isEvaluate {T : ToolkitTypes} : ToolkitCall T → Bool
  | ToolkitCall.evaluateJavaScript _ _ => true
  | _ => false

/-- A widget construction or destruction. -/
def ToolkitCall.isLifetime {T : ToolkitTypes} : ToolkitCall T → Bool
  | ToolkitCall.newQWebView => true
  | ToolkitCall.deleteQWebView _ => true
  | _ => false

/-- The widget handles a logged call was made with. -/
def ToolkitCall.views {T : ToolkitTypes} : ToolkitCall T → List T.QWebView
  | ToolkitCall.load v _ => [v]
  | ToolkitCall.page v => [v]
  | ToolkitCall.deleteQWebView v => [v]
  | _ => []

/-- The URL value a logged call handed to `load`, if it is one. -/
def ToolkitCall.url? {T : ToolkitTypes} : ToolkitCall T → Option T.QUrl
  | ToolkitCall.load _ u => some u
  | _ => none

/-- The string value a logged call handed to `evaluateJavaScript`, if it is one. -/
def ToolkitCall.script? {T : ToolkitTypes} : ToolkitCall T → Option T.QString
  | ToolkitCall.evaluateJavaScript _ c => some c
  | _ => none

/-- The entry point a logged call went to, without its arguments. -/
inductive CallKind where
  | load
  | page
  | mainFrame
  | evaluateJavaScript
  | newQWebView
  | deleteQWebView
  deriving DecidableEq, Repr

/-- The entry point of a logged call. -/
def ToolkitCall.kind {T : ToolkitTypes} : ToolkitCall T → CallKind
  | ToolkitCall.load _ _ => CallKind.load
  | ToolkitCall.page _ => CallKind.page
  | ToolkitCall.mainFrame _ => CallKind.mainFrame
  | ToolkitCall.evaluateJavaScript _ _ => CallKind.evaluateJavaScript
  | ToolkitCall.newQWebView => CallKind.newQWebView
  | ToolkitCall.deleteQWebView _ => CallKind.deleteQWebView

/-! ## Toolkits that differ only in what a script evaluation returns -/

/-- The toolkit `K` with the value `evaluateJavaScript` returns replaced by
`r`; the state it leaves is the one `K` leaves. -/
def withResult {T : ToolkitTypes} {World : Type} (K : Toolkit T World)
    (r : T.QWebFrame → T.QString → World → T.QVariant) : Toolkit T World :=
  { K with
    evaluateJavaScript := fun f c w => (r f c w, (K.evaluateJavaScript f c w).2) }

/-! ## The toolkit seen from the C side -/

/-- The toolkit types with the two value types replaced by the C string
itself. -/
def ToolkitTypes.raw (T : ToolkitTypes) : ToolkitTypes where
  QWebView := T.QWebView
  QWebPage := T.QWebPage
  QWebFrame := T.QWebFrame
  QUrl := CString
  QString := CString
  QVariant := T.QVariant

/-- The toolkit `K` with its value constructors moved behind the entry points:
`load` and `evaluateJavaScript` take the bytes and build the value of `K` from
them before calling `K`.  A log over `rawArgs K` shows the bytes that reach
the toolkit. -/
def rawArgs {T : ToolkitTypes} {World : Type} (K : Toolkit T World) :
    Toolkit T.raw World where
  newQUrl := fun s => s
  newQString := fun s => s
  load := fun v u w => K.load v (K.newQUrl u) w
  page := K.page
  mainFrame := K.mainFrame
  evaluateJavaScript := fun f c w => K.evaluateJavaScript f (K.newQString c) w
  newQWebView := K.newQWebView
  deleteQWebView := K.deleteQWebView

/-! ## Toolkits that keep their widgets apart -/

/-- The toolkit `K` keeps its widgets apart, for an observation `widget` of
one widget in a toolkit state and an owner for every page and frame: a page
belongs to the widget it was obtained from, a main frame to the widget of its
page, and a call changes what is observed of the widget it is made on only. -/
structure Confined {T : ToolkitTypes} {World : Type} {σ : Type} (K : Toolkit T World)
    (widget : World → T.QWebView → σ) (pageOwner : T.QWebPage → T.QWebView)
    (frameOwner : T.QWebFrame → T.QWebView) : Prop where
  page_owner : ∀ v w, pageOwner (K.page v w).1 = v
  mainFrame_owner : ∀ p w, frameOwner (K.mainFrame p w).1 = pageOwner p
  load_apart : ∀ v u w v', v' ≠ v → widget (K.load v u w) v' = widget w v'
  page_apart : ∀ v w v', v' ≠ v → widget (K.page v w).2 v' = widget w v'
  mainFrame_apart : ∀ p w v', v' ≠ pageOwner p → widget (K.mainFrame p w).2 v' = widget w v'
  evaluate_apart :
    ∀ f c w v', v' ≠ frameOwner f → widget (K.evaluateJavaScript f c w).2 v' = widget w v'

/-! ## A concrete toolkit to run the definitions on -/

/-- What the concrete toolkit remembers of one widget. -/
structure DemoWidget where
  /-- The URL of the last navigation request, if any. -/
  location : Option CString
  /-- The scripts submitted so far, oldest first. -/
  scripts : List CString

/-- Widgets, pages and frames are numbered, a page and its main frame carry
the number of their widget, and the value types keep the bytes as they are. -/
abbrev demoTypes : ToolkitTypes where
  QWebView := Nat
  QWebPage := Nat
  QWebFrame := Nat
  QUrl := CString
  QString := CString
  QVariant := Nat

/-- A toolkit small enough to evaluate: a navigation request is remembered as
the location of the widget, a submitted script is appended to the scripts of
the widget and its length is returned. -/
def demoKit : Toolkit demoTypes (Nat → DemoWidget) where
  newQUrl := fun s => s
  newQString := fun s => s
  load := fun v u w => Function.update w v { location := some u, scripts := (w v).scripts }
  page := fun v w => (v, w)
  mainFrame := fun p w => (p, w)
  evaluateJavaScript := fun f c w =>
    (c.length, Function.update w f { location := (w f).location, scripts := (w f).scripts ++ [c] })
  newQWebView := fun w => (0, w)
  deleteQWebView := fun v w => Function.update w v { location := none, scripts := [] }

/-- The concrete toolkit before any call: no widget has a location or a script. -/
def demoStart : Nat → DemoWidget :=
  fun _ => { location := none, scripts := [] }

/-! ## Shared lemmas -/

theorem loadCalls_eq {T : ToolkitTypes} {World : Type} (K : Toolkit T World)
    (view : T.QWebView) (url : CString) (w : World) :
    loadCalls K view url w = [ToolkitCall.load view (K.newQUrl url)] :=
  rfl

theorem evalCalls_eq {T : ToolkitTypes} {World : Type} (K : Toolkit T World)
    (view : T.QWebView) (code : CString) (w : World) :
    evalCalls K view code w =
      [ToolkitCall.page view, ToolkitCall.mainFrame (K.page view w).1,
       ToolkitCall.evaluateJavaScript
         (K.mainFrame (K.page view w).1 (K.page view w).2).1 (K.newQString code)] :=
  rfl

theorem cstr_example_bytes : cstr "a b" = [97, 32, 98] := by
  decide

theorem run_eq_specToolkitStep {T : ToolkitTypes} {World : Type} (K : Toolkit T World)
    (view : T.QWebView) (c : BridgeCall) (w : World) :
    (c.run K view w).2 = specToolkitStep K view w c := by
  cases c <;> rfl

theorem callsAlone_eq_specToolkitCalls {T : ToolkitTypes} {World : Type} (K : Toolkit T World)
    (view : T.QWebView) (c : BridgeCall) (w : World) :
    callsAlone K view c w = specToolkitCalls K view w c := by
  cases c <;> rfl

theorem run_traced {T : ToolkitTypes} {World : Type} (K : Toolkit T World)
    (view : T.QWebView) (c : BridgeCall) (w : World) (log : List (ToolkitCall T)) :
    (c.run (traced K) view (w, log)).2
      = (specToolkitStep K view w c, log ++ specToolkitCalls K view w c) := by
  cases c with
  | load url => rfl
  | eval code =>
    simp [BridgeCall.run, qwebview_eval, traced, specToolkitStep, specToolkitCalls]

theorem runAll_traced {T : ToolkitTypes} {World : Type} (K : Toolkit T World)
    (view : T.QWebView) (cs : List BridgeCall) :
    ∀ (w : World) (log : List (ToolkitCall T)),
      runAll (traced K) view cs (w, log)
        = (runAll K view cs w, log ++ specSequenceCalls K view cs w) := by
  induction cs with
  | nil => intro w log; simp [runAll, specSequenceCalls]
  | cons c cs ih =>
    intro w log
    simp only [runAll, specSequenceCalls]
    rw [run_traced, ih, run_eq_specToolkitStep, List.append_assoc]

theorem runAll_eq_foldl {T : ToolkitTypes} {World : Type} (K : Toolkit T World)
    (view : T.QWebView) (cs : List BridgeCall) :
    ∀ w : World, runAll K view cs w = cs.foldl (specToolkitStep K view) w := by
  induction cs with
  | nil => intro w; rfl
  | cons c cs ih =>
    intro w
    simp only [runAll, List.foldl_cons]
    rw [ih, run_eq_specToolkitStep]

theorem runAll_append {T : ToolkitTypes} {World : Type} (K : Toolkit T World)
    (view : T.QWebView) (cs₁ cs₂ : List BridgeCall) (w : World) :
    runAll K view (cs₁ ++ cs₂) w = runAll K view cs₂ (runAll K view cs₁ w) := by
  rw [runAll_eq_foldl, runAll_eq_foldl, runAll_eq_foldl, List.foldl_append]

theorem run_traced_callsAlone {T : ToolkitTypes} {World : Type} (K : Toolkit T World)
    (view : T.QWebView) (c : BridgeCall) (w : World) (log : List (ToolkitCall T)) :
    (c.run (traced K) view (w, log)).2 = ((c.run K view w).2, log ++ callsAlone K view c w) := by
  rw [run_traced, run_eq_specToolkitStep, callsAlone_eq_specToolkitCalls]

theorem specSequenceCalls_append {T : ToolkitTypes} {World : Type} (K : Toolkit T World)
    (view : T.QWebView) (cs₁ cs₂ : List BridgeCall) :
    ∀ w : World,
      specSequenceCalls K view (cs₁ ++ cs₂) w
        = specSequenceCalls K view cs₁ w
            ++ specSequenceCalls K view cs₂ (cs₁.foldl (specToolkitStep K view) w) := by
  induction cs₁ with
  | nil => intro w; simp [specSequenceCalls]
  | cons c cs ih =>
    intro w
    show specToolkitCalls K view w c
          ++ specSequenceCalls K view (cs ++ cs₂) (specToolkitStep K view w c)
        = (specToolkitCalls K view w c ++ specSequenceCalls K view cs (specToolkitStep K view w c))
          ++ specSequenceCalls K view cs₂
              (cs.foldl (specToolkitStep K view) (specToolkitStep K view w c))
    rw [ih, List.append_assoc]

theorem bridge_calls_views {T : ToolkitTypes} {World : Type} (K : Toolkit T World)
    (view : T.QWebView) (s : CString) (w : World) :
    ∀ e ∈ loadCalls K view s w ++ evalCalls K view s w, ∀ v ∈ e.views, v = view := by
  intro e he v hv
  rw [loadCalls_eq, evalCalls_eq] at he
  simp only [List.singleton_append, List.mem_cons, List.mem_singleton, List.not_mem_nil,
    or_false] at he
  rcases he with rfl | rfl | rfl | rfl <;> simp [ToolkitCall.views] at hv <;> exact hv

theorem demoKit_confined :
    Confined demoKit (fun (w : Nat → DemoWidget) (v : Nat) => w v)
      (fun p : Nat => p) (fun f : Nat => f) where
  page_owner := fun _ _ => rfl
  mainFrame_owner := fun _ _ => rfl
  load_apart := fun v u w v' h => by
    show Function.update w v _ v' = w v'
    exact Function.update_noteq h _ _
  page_apart := fun _ _ _ _ => rfl
  mainFrame_apart := fun _ _ _ _ => rfl
  evaluate_apart := fun f c w v' h => by
    show Function.update w f _ v' = w v'
    exact Function.update_noteq h _ _

theorem demoKit_load_changes_widget :
    ((qwebview_load demoKit (3 : Nat) (cstr "a b") demoStart).2 3).location = some [97, 32, 98]
      ∧ ((qwebview_eval demoKit (3 : Nat) (cstr "a b") demoStart).2 3).scripts
          = [[97, 32, 98]] := by
  rw [cstr_example_bytes]
  exact ⟨rfl, rfl⟩

/-! ## The claims -/

/-- C1: for every toolkit, widget handle and URL text `u`, `qwebview_load`
returns nothing, leaves the toolkit in the state its `load` leaves, and adds
to the log of toolkit calls exactly one call, a `load` on the given widget
with the URL value built from `u` itself; with the URL constructor moved
behind the entry point the logged argument is `u`, byte for byte, and the
outcome is the same; and whenever the URL values of the toolkit keep their
text, the text of the requested URL is `u`. -/
theorem qwebview_load_request {T : ToolkitTypes} {World : Type} (K : Toolkit T World)
    (view : T.QWebView) (u : CString) (w : World) (log : List (ToolkitCall T)) :
    qwebview_load (traced K) view u (w, log)
        = ((), (K.load view (K.newQUrl u) w, log ++ [ToolkitCall.load view (K.newQUrl u)]))
      ∧ qwebview_load K view u w = ((), K.load view (K.newQUrl u) w)
      ∧ (loadCalls K view u w).countP ToolkitCall.isLoad = 1
      ∧ (loadCalls K view u w).length = 1
      ∧ loadCalls (rawArgs K) view u w = [@ToolkitCall.load T.raw view u]
      ∧ qwebview_load (rawArgs K) view u w = qwebview_load K view u w
      ∧ ∀ text : T.QUrl → CString, (∀ s, text (K.newQUrl s) = s) →
          ∀ v x, ToolkitCall.load v x ∈ loadCalls K view u w → v = view ∧ text x = u := by
  refine ⟨rfl, rfl, rfl, rfl, rfl, rfl, ?_⟩
  intro text htext v x hx
  rw [loadCalls_eq, List.mem_singleton] at hx
  injection hx with hv hu
  exact ⟨hv, by rw [hu, htext]⟩

/-- C1 on the concrete toolkit: loading `https://example.com` on widget 3
logs one `load` of exactly those bytes on widget 3. -/
theorem qwebview_load_request_witness :
    qwebview_load (traced demoKit) (3 : Nat) (cstr "https://example.com") (demoStart, [])
      = ((), (demoKit.load (3 : Nat) (cstr "https://example.com") demoStart,
              [ToolkitCall.load (3 : Nat) (cstr "https://example.com")])) :=
  (qwebview_load_request demoKit (3 : Nat) (cstr "https://example.com") demoStart []).1

/-- C2: for every toolkit, widget handle and script text `c`, `qwebview_eval`
asks the widget for its page, asks that page for its main frame, and submits
to that frame exactly one script, the string value built from `c` itself; the
toolkit is left in the state these three calls leave; with the string
constructor moved behind the entry point the logged script is `c`, byte for
byte, and the outcome is the same; and whenever the string values of the
toolkit keep their text, the submitted text is `c`. -/
theorem qwebview_eval_request {T : ToolkitTypes} {World : Type} (K : Toolkit T World)
    (view : T.QWebView) (c : CString) (w : World) (log : List (ToolkitCall T)) :
    qwebview_eval (traced K) view c (w, log)
        = ((), ((K.evaluateJavaScript (K.mainFrame (K.page view w).1 (K.page view w).2).1
                  (K.newQString c) (K.mainFrame (K.page view w).1 (K.page view w).2).2).2,
                log ++ [ToolkitCall.page view, ToolkitCall.mainFrame (K.page view w).1,
                        ToolkitCall.evaluateJavaScript
                          (K.mainFrame (K.page view w).1 (K.page view w).2).1
                          (K.newQString c)]))
      ∧ (evalCalls K view c w).countP ToolkitCall.isEvaluate = 1
      ∧ (evalCalls K view c w).countP ToolkitCall.isLoad = 0
      ∧ (evalCalls (rawArgs K) view c w).filterMap ToolkitCall.script? = [c]
      ∧ qwebview_eval (rawArgs K) view c w = qwebview_eval K view c w
      ∧ ∀ text : T.QString → CString, (∀ s, text (K.newQString s) = s) →
          ∀ f x, ToolkitCall.evaluateJavaScript f x ∈ evalCalls K view c w →
            f = (K.mainFrame (K.page view w).1 (K.page view w).2).1 ∧ text x = c := by
  refine ⟨?_, rfl, rfl, rfl, rfl, ?_⟩
  · simp [qwebview_eval, traced]
  · intro text htext f x hx
    rw [evalCalls_eq] at hx
    simp only [List.mem_cons, List.mem_singleton, List.not_mem_nil, or_false] at hx
    rcases hx with hx | hx | hx
    · cases hx
    · cases hx
    · injection hx with hf hc
      exact ⟨hf, by rw [hc, htext]⟩

/-- C2 on the concrete toolkit: evaluating `document.title` on widget 3 logs
the page call, the main-frame call and one submission of exactly those
bytes. -/
theorem qwebview_eval_request_witness :
    qwebview_eval (traced demoKit) (3 : Nat) (cstr "document.title") (demoStart, [])
      = ((), ((demoKit.evaluateJavaScript (3 : Nat) (cstr "document.title") demoStart).2,
              [ToolkitCall.page (3 : Nat), ToolkitCall.mainFrame (3 : Nat),
               ToolkitCall.evaluateJavaScript (3 : Nat) (cstr "document.title")])) :=
  (qwebview_eval_request demoKit (3 : Nat) (cstr "document.title") demoStart []).1

/-- C3: `qwebview_eval` drops what the toolkit evaluation returns: for two
toolkits that differ only in the value `evaluateJavaScript` returns, the call
returns the same nothing, leaves the same toolkit state and logs the same
toolkit calls, and all three are those of the unchanged toolkit. -/
theorem qwebview_eval_discards_result {T : ToolkitTypes} {World : Type} (K : Toolkit T World)
    (r₁ r₂ : T.QWebFrame → T.QString → World → T.QVariant)
    (view : T.QWebView) (c : CString) (w : World) (log : List (ToolkitCall T)) :
    (qwebview_eval (withResult K r₁) view c w).1 = ()
      ∧ qwebview_eval (withResult K r₁) view c w = qwebview_eval (withResult K r₂) view c w
      ∧ qwebview_eval (traced (withResult K r₁)) view c (w, log)
          = qwebview_eval (traced (withResult K r₂)) view c (w, log)
      ∧ qwebview_eval (traced (withResult K r₁)) view c (w, log)
          = qwebview_eval (traced K) view c (w, log) :=
  ⟨rfl, rfl, rfl, rfl⟩

/-- C3 on the concrete toolkit: whether the evaluation returns 0 or 1, the
outcome of `qwebview_eval` is the same. -/
theorem qwebview_eval_discards_result_witness :
    qwebview_eval (withResult demoKit (fun _ _ _ => (0 : Nat))) (3 : Nat)
        (cstr "document.title") demoStart
      = qwebview_eval (withResult demoKit (fun _ _ _ => (1 : Nat))) (3 : Nat)
        (cstr "document.title") demoStart :=
  (qwebview_eval_discards_result demoKit (fun _ _ _ => (0 : Nat)) (fun _ _ _ => (1 : Nat))
    (3 : Nat) (cstr "document.title") demoStart []).2.1

/-- C4: for every toolkit, widget handle and input text, each operation
completes and returns nothing; it makes the same toolkit calls in the same
order whatever the text is (one `load`; `page`, `mainFrame`, one
`evaluateJavaScript`), so no text is rejected, no call is repeated and nothing
follows the request; and whatever the evaluation reports back, a failure
included, the calls made and the outcome are the same. -/
theorem bridge_surfaces_no_error {T : ToolkitTypes} {World : Type} (K : Toolkit T World)
    (view : T.QWebView) (s : CString) (w : World) :
    (∃ w', qwebview_load K view s w = ((), w'))
      ∧ (∃ w', qwebview_eval K view s w = ((), w'))
      ∧ (loadCalls K view s w).map ToolkitCall.kind = [CallKind.load]
      ∧ (evalCalls K view s w).map ToolkitCall.kind
          = [CallKind.page, CallKind.mainFrame, CallKind.evaluateJavaScript]
      ∧ (loadCalls K view s w).getLast? = some (ToolkitCall.load view (K.newQUrl s))
      ∧ (evalCalls K view s w).getLast?
          = some (ToolkitCall.evaluateJavaScript
              (K.mainFrame (K.page view w).1 (K.page view w).2).1 (K.newQString s))
      ∧ ∀ r : T.QWebFrame → T.QString → World → T.QVariant,
          evalCalls (withResult K r) view s w = evalCalls K view s w
            ∧ qwebview_eval (withResult K r) view s w = qwebview_eval K view s w :=
  ⟨⟨_, rfl⟩, ⟨_, rfl⟩, rfl, rfl, rfl, rfl, fun _ => ⟨rfl, rfl⟩⟩

/-- C4 on the concrete toolkit: a text that is no URL is still requested, and
the call returns nothing. -/
theorem bridge_surfaces_no_error_witness :
    (loadCalls demoKit (3 : Nat) (cstr "a b") demoStart).getLast?
      = some (ToolkitCall.load (3 : Nat) (cstr "a b")) :=
  (bridge_surfaces_no_error demoKit (3 : Nat) (cstr "a b") demoStart).2.2.2.2.1

/-- C5: for every toolkit, handle and sequence of bridge calls on that handle,
the toolkit ends in the state the corresponding toolkit calls leave when made
one after the other, and the log grows by exactly the toolkit calls of each
bridge call in order; a call adds to any log, from any toolkit state, the
calls it makes alone from that state, so inside a sequence it issues what it
issues alone from the state the earlier calls left; a `load` issues the same
request from every state, an evaluation the same kinds of calls and the same
script; and running two sequences in a row is running their concatenation. -/
theorem bridge_is_stateless {T : ToolkitTypes} {World : Type} (K : Toolkit T World)
    (view : T.QWebView) (cs : List BridgeCall) (w : World) (log : List (ToolkitCall T)) :
    runAll (traced K) view cs (w, log)
        = (cs.foldl (specToolkitStep K view) w, log ++ specSequenceCalls K view cs w)
      ∧ runAll K view cs w = cs.foldl (specToolkitStep K view) w
      ∧ (∀ (c : BridgeCall) (w₀ : World) (log₀ : List (ToolkitCall T)),
          (c.run (traced K) view (w₀, log₀)).2
              = ((c.run K view w₀).2, log₀ ++ callsAlone K view c w₀)
            ∧ callsAlone K view c w₀ = specToolkitCalls K view w₀ c
            ∧ (c.run K view w₀).2 = specToolkitStep K view w₀ c)
      ∧ (∀ (c : BridgeCall) (post : List BridgeCall),
          (runAll (traced K) view (cs ++ c :: post) (w, log)).2
            = (runAll (traced K) view cs (w, log)).2
                ++ (callsAlone K view c (runAll K view cs w)
                    ++ specSequenceCalls K view post (runAll K view (cs ++ [c]) w)))
      ∧ (∀ (u : CString) (w₁ w₂ : World),
          callsAlone K view (BridgeCall.load u) w₁ = callsAlone K view (BridgeCall.load u) w₂)
      ∧ (∀ (c : CString) (w₁ w₂ : World),
          (callsAlone K view (BridgeCall.eval c) w₁).map ToolkitCall.kind
              = (callsAlone K view (BridgeCall.eval c) w₂).map ToolkitCall.kind
            ∧ (callsAlone K view (BridgeCall.eval c) w₁).filterMap ToolkitCall.script?
              = (callsAlone K view (BridgeCall.eval c) w₂).filterMap ToolkitCall.script?)
      ∧ ∀ cs₂ : List BridgeCall,
          runAll K view (cs ++ cs₂) w = runAll K view cs₂ (runAll K view cs w) := by
  refine ⟨?_, runAll_eq_foldl K view cs w, ?_, ?_, fun _ _ _ => rfl, fun _ _ _ => ⟨rfl, rfl⟩,
    fun cs₂ => runAll_append K view cs cs₂ w⟩
  · rw [runAll_traced, runAll_eq_foldl]
  · intro c w₀ log₀
    exact ⟨run_traced_callsAlone K view c w₀ log₀, callsAlone_eq_specToolkitCalls K view c w₀,
      run_eq_specToolkitStep K view c w₀⟩
  · intro c post
    rw [runAll_traced, runAll_traced, specSequenceCalls_append, callsAlone_eq_specToolkitCalls]
    simp only [runAll_eq_foldl, specSequenceCalls, List.foldl_append, List.foldl_cons,
      List.foldl_nil, List.append_assoc]

/-- C5 on the concrete toolkit: load, evaluate, load again on widget 3 logs
the toolkit calls of the three bridge calls in order, the repeated load
issuing the same request as the first. -/
theorem bridge_is_stateless_witness :
    (runAll (traced demoKit) (3 : Nat)
        [BridgeCall.load (cstr "https://example.com"), BridgeCall.eval (cstr "document.title"),
         BridgeCall.load (cstr "https://example.com")] (demoStart, [])).2
      = [ToolkitCall.load (3 : Nat) (cstr "https://example.com"),
         ToolkitCall.page (3 : Nat), ToolkitCall.mainFrame (3 : Nat),
         ToolkitCall.evaluateJavaScript (3 : Nat) (cstr "document.title"),
         ToolkitCall.load (3 : Nat) (cstr "https://example.com")] :=
  congrArg Prod.snd
    (bridge_is_stateless demoKit (3 : Nat)
      [BridgeCall.load (cstr "https://example.com"), BridgeCall.eval (cstr "document.title"),
       BridgeCall.load (cstr "https://example.com")] demoStart []).1

/-- C6: for every toolkit, handle and text, every toolkit call of either
operation that takes a widget takes the given one, also after an earlier
bridge call on any other handle, no call constructs or
destroys a widget, `qwebview_load` submits no script and `qwebview_eval`
requests no navigation, and the state left is the state the toolkit calls
leave, the bridge adding nothing of its own; whenever the toolkit keeps its
widgets apart, the page and frame used belong to the given widget and every
other widget is observed unchanged after the call. -/
theorem bridge_passes_handle_through {T : ToolkitTypes} {World : Type} (K : Toolkit T World)
    (view : T.QWebView) (s : CString) (w : World) :
    (∀ e ∈ loadCalls K view s w ++ evalCalls K view s w, ∀ v ∈ e.views, v = view)
      ∧ (∀ (v₁ : T.QWebView) (c₁ : BridgeCall),
          ∀ e ∈ loadCalls K view s (c₁.run K v₁ w).2 ++ evalCalls K view s (c₁.run K v₁ w).2,
            ∀ v ∈ e.views, v = view)
      ∧ (∀ e ∈ loadCalls K view s w ++ evalCalls K view s w, e.isLifetime = false)
      ∧ (∀ e ∈ loadCalls K view s w, e.isEvaluate = false)
      ∧ (∀ e ∈ evalCalls K view s w, e.isLoad = false)
      ∧ (qwebview_load K view s w).2 = K.load view (K.newQUrl s) w
      ∧ (qwebview_eval K view s w).2
          = (K.evaluateJavaScript (K.mainFrame (K.page view w).1 (K.page view w).2).1
              (K.newQString s) (K.mainFrame (K.page view w).1 (K.page view w).2).2).2
      ∧ ∀ (σ : Type) (widget : World → T.QWebView → σ) (pageOwner : T.QWebPage → T.QWebView)
          (frameOwner : T.QWebFrame → T.QWebView),
          Confined K widget pageOwner frameOwner →
            (∀ p, ToolkitCall.mainFrame p ∈ evalCalls K view s w → pageOwner p = view)
              ∧ (∀ f x, ToolkitCall.evaluateJavaScript f x ∈ evalCalls K view s w →
                  frameOwner f = view)
              ∧ ∀ v', v' ≠ view →
                  widget (qwebview_load K view s w).2 v' = widget w v'
                    ∧ widget (qwebview_eval K view s w).2 v' = widget w v' := by
  have hp : ∀ {σ : Type} {widget : World → T.QWebView → σ}
      {pageOwner : T.QWebPage → T.QWebView} {frameOwner : T.QWebFrame → T.QWebView},
      Confined K widget pageOwner frameOwner →
        frameOwner (K.mainFrame (K.page view w).1 (K.page view w).2).1 = view := by
    intro σ widget pageOwner frameOwner h
    rw [h.mainFrame_owner, h.page_owner]
  refine ⟨bridge_calls_views K view s w,
    fun v₁ c₁ => bridge_calls_views K view s (c₁.run K v₁ w).2, ?_, ?_, ?_, rfl, rfl, ?_⟩
  · intro e he
    rw [loadCalls_eq, evalCalls_eq] at he
    simp only [List.singleton_append, List.mem_cons, List.mem_singleton, List.not_mem_nil,
      or_false] at he
    rcases he with rfl | rfl | rfl | rfl <;> rfl
  · intro e he
    rw [loadCalls_eq, List.mem_singleton] at he
    subst he
    rfl
  · intro e he
    rw [evalCalls_eq] at he
    simp only [List.mem_cons, List.mem_singleton, List.not_mem_nil, or_false] at he
    rcases he with rfl | rfl | rfl <;> rfl
  · intro σ widget pageOwner frameOwner h
    refine ⟨?_, ?_, ?_⟩
    · intro p hpm
      rw [evalCalls_eq] at hpm
      simp only [List.mem_cons, List.mem_singleton, List.not_mem_nil, or_false] at hpm
      rcases hpm with hpm | hpm | hpm
      · cases hpm
      · injection hpm with hpe
        rw [hpe, h.page_owner]
      · cases hpm
    · intro f x hfm
      rw [evalCalls_eq] at hfm
      simp only [List.mem_cons, List.mem_singleton, List.not_mem_nil, or_false] at hfm
      rcases hfm with hfm | hfm | hfm
      · cases hfm
      · cases hfm
      · injection hfm with hfe _
        rw [hfe]
        exact hp h
    · intro v' hv'
      refine ⟨h.load_apart view (K.newQUrl s) w v' hv', ?_⟩
      show widget (K.evaluateJavaScript (K.mainFrame (K.page view w).1 (K.page view w).2).1
        (K.newQString s) (K.mainFrame (K.page view w).1 (K.page view w).2).2).2 v' = widget w v'
      rw [h.evaluate_apart _ _ _ v' (by rw [hp h]; exact hv'),
        h.mainFrame_apart _ _ v' (by rw [h.page_owner]; exact hv'),
        h.page_apart view w v' hv']

/-- C6 on the concrete toolkit, which keeps its widgets apart: after a load
and after an evaluation on widget 3, widget 4 is as it was. -/
theorem bridge_passes_handle_through_witness :
    (qwebview_load demoKit (3 : Nat) (cstr "https://example.com") demoStart).2 4 = demoStart 4
      ∧ (qwebview_eval demoKit (3 : Nat) (cstr "https://example.com") demoStart).2 4
          = demoStart 4 :=
  ((bridge_passes_handle_through demoKit (3 : Nat) (cstr "https://example.com")
      demoStart).2.2.2.2.2.2.2 DemoWidget (fun (w : Nat → DemoWidget) (v : Nat) => w v)
      (fun p : Nat => p) (fun f : Nat => f) demoKit_confined).2.2 4 (by decide)

/-- C7: for every toolkit, handle and text `s`, the value handed to `load` is
`QUrl(s)` and the value handed to `evaluateJavaScript` is `QString(s)`, each
built once from the argument as received: the URL values logged are
`newQUrl s` alone, the string values logged are `newQString s` alone, with
the constructors moved behind the entry points the bytes logged are `s`
alone, and where the constructor is injective the only text whose wrap is the
handed value is `s` itself. -/
theorem bridge_wraps_argument_once {T : ToolkitTypes} {World : Type} (K : Toolkit T World)
    (view : T.QWebView) (s : CString) (w : World) :
    (loadCalls K view s w).filterMap ToolkitCall.url? = [K.newQUrl s]
      ∧ (evalCalls K view s w).filterMap ToolkitCall.script? = [K.newQString s]
      ∧ (evalCalls K view s w).filterMap ToolkitCall.url? = []
      ∧ (loadCalls K view s w).filterMap ToolkitCall.script? = []
      ∧ (qwebview_load K view s w).2 = K.load view (K.newQUrl s) w
      ∧ (qwebview_eval K view s w).2
          = (K.evaluateJavaScript (K.mainFrame (K.page view w).1 (K.page view w).2).1
              (K.newQString s) (K.mainFrame (K.page view w).1 (K.page view w).2).2).2
      ∧ (loadCalls (rawArgs K) view s w).filterMap ToolkitCall.url? = [s]
      ∧ (evalCalls (rawArgs K) view s w).filterMap ToolkitCall.script? = [s]
      ∧ (Function.Injective K.newQUrl →
          ∀ s', K.newQUrl s' ∈ (loadCalls K view s w).filterMap ToolkitCall.url? → s' = s)
      ∧ (Function.Injective K.newQString →
          ∀ s', K.newQString s' ∈ (evalCalls K view s w).filterMap ToolkitCall.script? →
            s' = s) := by
  refine ⟨rfl, rfl, rfl, rfl, rfl, rfl, rfl, rfl, ?_, ?_⟩
  · intro hinj s' hs'
    have h : (loadCalls K view s w).filterMap ToolkitCall.url? = [K.newQUrl s] := rfl
    rw [h, List.mem_singleton] at hs'
    exact hinj hs'
  · intro hinj s' hs'
    have h : (evalCalls K view s w).filterMap ToolkitCall.script? = [K.newQString s] := rfl
    rw [h, List.mem_singleton] at hs'
    exact hinj hs'

/-- C7 on the concrete toolkit, whose value types keep the bytes: the value
handed to `load` for the text `a b` is the text `a b`, space included. -/
theorem bridge_wraps_argument_once_witness :
    (loadCalls demoKit (3 : Nat) (cstr "a b") demoStart).filterMap ToolkitCall.url?
      = [([97, 32, 98] : CString)] :=
  cstr_example_bytes ▸ (bridge_wraps_argument_once demoKit (3 : Nat) (cstr "a b") demoStart).1

end RQWebView
